import Mathlib

/-!
Shallow embedding of the order-lifecycle core of the multi-branch restaurant
point-of-sale application (Flask/SQLAlchemy), together with theorems that
settle the frozen claims about its specification.

The definitions below are translated from `app/models.py` and
`app/pos/views.py`.  Database rows become Lean structures, tables become
lists of rows, SQLAlchemy queries become list filters, timestamps are
abstract natural numbers, and currency amounts are integers.  Request
handlers become pure functions from a database state and request data to a
result value and an updated database state; the `db.session.rollback()` on
an error path corresponds to returning the state unchanged.
-/

namespace PosApp

/-! ## Enumerations (`app/models.py`, lines 13-38) -/

/-- Mirrors `UserRole` in `app/models.py`. -/
inductive UserRole
  | SUPER_USER
  | BRANCH_ADMIN
  | MANAGER
  | CASHIER
  | WAITER
  | KITCHEN
  deriving DecidableEq

/-- Mirrors `PaymentMethod` in `app/models.py`. -/
inductive PaymentMethod
  | CASH
  | CARD
  | QR_CODE
  deriving DecidableEq

/-- Mirrors `ServiceType` in `app/models.py`. -/
inductive ServiceType
  | ON_TABLE
  | TAKE_AWAY
  | DELIVERY
  | CARD
  deriving DecidableEq

/-- Mirrors `OrderStatus` in `app/models.py`. -/
inductive OrderStatus
  | PENDING
  | PAID
  | CANCELLED
  deriving DecidableEq

/-! ## Substring matching

SQLAlchemy's `Order.notes.like('%[WAITER ORDER]%')` and
`Order.notes.contains('[WAITER ORDER]')` both test for a literal substring.
We model that test on the underlying character lists. -/

/-- `headMatches s pat` holds when `pat` occurs at the very start of `s`. -/
def headMatches : List Char → List Char → Bool
  | _, [] => true
  | [], _ :: _ => false
  | a :: as, b :: bs => a = b && headMatches as bs

/-- `occursIn s pat` holds when `pat` occurs somewhere inside `s`. -/
def occursIn : List Char → List Char → Bool
  | [], pat => pat.isEmpty
  | c :: rest, pat => headMatches (c :: rest) pat || occursIn rest pat

/-- Literal substring test on strings, the model of SQL `LIKE '%pat%'`. -/
def strContains (s pat : String) : Bool :=
  occursIn s.data pat.data

theorem headMatches_append_self (t r : List Char) :
    headMatches (t ++ r) t = true := by
  induction t with
  | nil => cases r <;> rfl
  | cons a as ih => simp [headMatches, ih]

theorem occursIn_of_headMatches {s t : List Char} (h : headMatches s t = true) :
    occursIn s t = true := by
  cases s with
  | nil =>
    cases t with
    | nil => rfl
    | cons b bs => simp [headMatches] at h
  | cons c rest => simp [occursIn, h]

theorem occursIn_append_self (t r : List Char) :
    occursIn (t ++ r) t = true :=
  occursIn_of_headMatches (headMatches_append_self t r)

theorem strContains_append_right (pat r : String) :
    strContains (pat ++ r) pat = true := by
  have hdata : (pat ++ r).data = pat.data ++ r.data := rfl
  unfold strContains
  rw [hdata]
  exact occursIn_append_self pat.data r.data

theorem headMatches_append_of {s t : List Char} (r : List Char)
    (h : headMatches s t = true) : headMatches (s ++ r) t = true := by
  induction s generalizing t with
  | nil =>
    cases t with
    | nil => cases r with | nil => rfl | cons c cs => rfl
    | cons b bs => simp [headMatches] at h
  | cons a as ih =>
    cases t with
    | nil => rfl
    | cons b bs =>
      simp only [headMatches, Bool.and_eq_true] at h ⊢
      exact ⟨h.1, ih h.2⟩

theorem occursIn_append_of_left {s t : List Char} (r : List Char)
    (h : occursIn s t = true) : occursIn (s ++ r) t = true := by
  induction s with
  | nil =>
    have ht : t = [] := by
      cases t with
      | nil => rfl
      | cons b bs => simp [occursIn] at h
    subst ht
    cases r with
    | nil => rfl
    | cons c cs => simp [occursIn, headMatches]
  | cons a as ih =>
    simp only [occursIn, Bool.or_eq_true] at h
    rcases h with h | h
    · simp only [List.cons_append, occursIn, Bool.or_eq_true]
      exact Or.inl (headMatches_append_of r h)
    · simp only [List.cons_append, occursIn, Bool.or_eq_true]
      exact Or.inr (ih h)

theorem occursIn_append_of_right {r t : List Char} (s : List Char)
    (h : occursIn r t = true) : occursIn (s ++ r) t = true := by
  induction s with
  | nil => simpa using h
  | cons a as ih =>
    simp only [List.cons_append, occursIn, Bool.or_eq_true]
    exact Or.inr ih

/-- A string containing the pattern still contains it after appending on the
right. -/
theorem strContains_mono_left {s pat : String} (r : String)
    (h : strContains s pat = true) : strContains (s ++ r) pat = true := by
  have hdata : (s ++ r).data = s.data ++ r.data := rfl
  unfold strContains at h ⊢
  rw [hdata]
  exact occursIn_append_of_left r.data h

/-- A string containing the pattern still contains it after prepending on
the left. -/
theorem strContains_mono_right {r pat : String} (s : String)
    (h : strContains r pat = true) : strContains (s ++ r) pat = true := by
  have hdata : (s ++ r).data = s.data ++ r.data := rfl
  unfold strContains at h ⊢
  rw [hdata]
  exact occursIn_append_of_right s.data h

/-! ## Core rows -/

/-- Mirrors the `Order` model (`app/models.py`, lines 248-291), restricted to
the columns the order-lifecycle core reads or writes.  Timestamps are
abstract `Nat` ticks and currency is `Int`. -/
structure Order where
  id : Nat
  order_number : String
  order_counter : Option Nat
  total_amount : Int
  payment_method : Option PaymentMethod
  service_type : ServiceType
  status : OrderStatus
  notes : String
  created_at : Nat
  paid_at : Option Nat
  cleared_from_waiter_requests : Bool
  last_edited_at : Option Nat
  last_edited_by : Option Nat
  edit_count : Nat
  branch_id : Nat
  cashier_id : Option Nat
  assigned_cashier_id : Option Nat
  table_id : Option Nat
  deriving DecidableEq

/-- Mirrors the `User` model columns used by the POS views. -/
structure UserRec where
  id : Nat
  role : UserRole
  branch_id : Option Nat
  full_name : String
  is_active : Bool
  deriving DecidableEq

/-- Mirrors the `AuditLog` model columns written by the POS views. -/
structure AuditEntry where
  user_id : Option Nat
  action : String
  description : String
  deriving DecidableEq

/-! ## C1: `mark_order_paid` (`app/pos/views.py`, lines 2873-2933) -/

/-- Outcomes of `mark_order_paid`, one constructor per `return` site. -/
inductive MarkPaidResult
  | accessDenied
  | accessDeniedDifferentBranch
  | alreadyPaid
  | markedPaid
  deriving DecidableEq

/-- Mirrors `mark_order_paid`: permission check, branch check, the
`order.status == OrderStatus.PAID` rejection, then the mutation that sets
`status = PAID` and `paid_at = utcnow()`. -/
def mark_order_paid (role : UserRole) (user_branch_id : Option Nat)
    (o : Order) (now : Nat) : MarkPaidResult × Order :=
  if ¬ (role = UserRole.CASHIER ∨ role = UserRole.BRANCH_ADMIN ∨
        role = UserRole.SUPER_USER) then
    (.accessDenied, o)
  else if role ≠ UserRole.SUPER_USER ∧ some o.branch_id ≠ user_branch_id then
    (.accessDeniedDifferentBranch, o)
  else if o.status = OrderStatus.PAID then
    (.alreadyPaid, o)
  else
    (.markedPaid, { o with status := OrderStatus.PAID, paid_at := some now })

/-- A concrete order whose status is `CANCELLED`. -/
def cancelledOrderExample : Order :=
  { id := 1
    order_number := "ORD20250101AAAA"
    order_counter := some 5
    total_amount := 40
    payment_method := some PaymentMethod.CASH
    service_type := ServiceType.ON_TABLE
    status := OrderStatus.CANCELLED
    notes := ""
    created_at := 10
    paid_at := none
    cleared_from_waiter_requests := false
    last_edited_at := none
    last_edited_by := none
    edit_count := 0
    branch_id := 1
    cashier_id := some 2
    assigned_cashier_id := none
    table_id := some 3 }

/-- Claim C1 counterexample: for an order that is already `CANCELLED`, the
mark-paid operation does not fail — it succeeds and rewrites the order to
`PAID`, changing the row.  (`mark_order_paid` only rejects status `PAID`.) -/
theorem markPaid_cancelled_counterexample :
    (mark_order_paid UserRole.CASHIER (some 1) cancelledOrderExample 99).1 =
      MarkPaidResult.markedPaid ∧
    (mark_order_paid UserRole.CASHIER (some 1) cancelledOrderExample 99).2.status =
      OrderStatus.PAID ∧
    (mark_order_paid UserRole.CASHIER (some 1) cancelledOrderExample 99).2 ≠
      cancelledOrderExample := by
  refine ⟨rfl, rfl, ?_⟩
  decide

/-- Claim C1 (amended): the mark-paid operation is a no-op failure exactly
for orders already `PAID`: it never reports success and leaves the row
unchanged.  For an order whose status is `CANCELLED`, however, the operation
does not fail: an authorized same-branch call rewrites the status to `PAID`
and sets `paid_at`. -/
theorem markPaid_amended :
    (∀ (role : UserRole) (ub : Option Nat) (o : Order) (now : Nat),
        o.status = OrderStatus.PAID →
        (mark_order_paid role ub o now).1 ≠ MarkPaidResult.markedPaid ∧
        (mark_order_paid role ub o now).2 = o) ∧
    (∀ (o : Order) (now : Nat),
        o.status = OrderStatus.CANCELLED →
        mark_order_paid UserRole.CASHIER (some o.branch_id) o now =
          (MarkPaidResult.markedPaid,
           { o with status := OrderStatus.PAID, paid_at := some now })) := by
  constructor
  · intro role ub o now hpaid
    unfold mark_order_paid
    by_cases h1 : role = UserRole.CASHIER ∨ role = UserRole.BRANCH_ADMIN ∨
        role = UserRole.SUPER_USER
    · by_cases h2 : role ≠ UserRole.SUPER_USER ∧ some o.branch_id ≠ ub
      · simp only [h1, h2]
        split <;> simp
      · simp [h1, h2, hpaid]
    · simp [h1]
  · intro o now hcanc
    unfold mark_order_paid
    simp [hcanc]

/-- Witness for `markPaid_amended` at a concrete `PAID` order and at the
concrete `CANCELLED` order. -/
theorem markPaid_amended_witness :
    ((mark_order_paid UserRole.CASHIER (some 1)
        { cancelledOrderExample with status := OrderStatus.PAID } 99).2 =
      { cancelledOrderExample with status := OrderStatus.PAID }) ∧
    (mark_order_paid UserRole.CASHIER (some 1) cancelledOrderExample 42).1 =
      MarkPaidResult.markedPaid := by
  constructor
  · exact (markPaid_amended.1 UserRole.CASHIER (some 1)
      { cancelledOrderExample with status := OrderStatus.PAID } 99 rfl).2
  · exact congrArg Prod.fst
      (markPaid_amended.2 cancelledOrderExample 42 rfl)

/-! ## Assignment directory (`app/models.py`, lines 862-917) -/

/-- Mirrors the `WaiterCashierAssignment` model: one routing record per
(waiter, branch). -/
structure WaiterCashierAssignment where
  id : Nat
  waiter_id : Nat
  branch_id : Nat
  assigned_cashier_id : Nat
  assigned_by_cashier_id : Option Nat
  deriving DecidableEq

/-- Mirrors `WaiterCashierAssignment.get_assignment_for_waiter`:
`query.filter_by(waiter_id=..., branch_id=...).first()`. -/
def get_assignment_for_waiter (assignments : List WaiterCashierAssignment)
    (waiter_id branch_id : Nat) : Option WaiterCashierAssignment :=
  (assignments.filter
    (fun a => a.waiter_id == waiter_id && a.branch_id == branch_id)).head?

/-! ## Sequence counter (`app/models.py`, lines 474-537) -/

/-- Mirrors the `OrderCounter` model: one counter row per branch. -/
structure OrderCounterRec where
  id : Nat
  branch_id : Nat
  current_counter : Nat
  last_reset_date : Option Nat
  updated_at : Nat
  deriving DecidableEq

/-- Mirrors `OrderCounter.get_next_counter`: look up the branch row with a
plain (unlocked) query; if absent insert a row at 1 and return 1, else
increment in place and return the new value. -/
def get_next_counter (counters : List OrderCounterRec) (branch_id now : Nat) :
    Nat × List OrderCounterRec :=
  match counters.find? (fun c => c.branch_id == branch_id) with
  | none =>
      (1, counters ++
        [{ id := counters.length + 1, branch_id := branch_id,
           current_counter := 1, last_reset_date := none, updated_at := now }])
  | some c =>
      (c.current_counter + 1,
       counters.map (fun r =>
         if r.id == c.id then
           { r with current_counter := r.current_counter + 1, updated_at := now }
         else r))

/-! ## Database state shared by the POS request handlers -/

/-- Mirrors the `OrderEditHistory` model (`app/models.py`, lines 293-309). -/
structure OrderEditHistoryRec where
  order_id : Nat
  edited_by : Nat
  edited_at : Nat
  original_total : Int
  new_total : Int
  changes_summary : String
  deriving DecidableEq

/-- Mirrors the `OrderItem` model (`app/models.py`, lines 311-328). -/
structure OrderItemRec where
  id : Nat
  order_id : Nat
  menu_item_id : Nat
  quantity : Nat
  unit_price : Int
  total_price : Int
  notes : Option String
  special_requests : String
  is_new : Bool
  is_deleted : Bool
  deriving DecidableEq

/-- The slice of the relational database touched by the modelled handlers. -/
structure PosDb where
  users : List UserRec
  orders : List Order
  order_items : List OrderItemRec
  counters : List OrderCounterRec
  assignments : List WaiterCashierAssignment
  edit_history : List OrderEditHistoryRec
  audit : List AuditEntry
  deriving DecidableEq

/-! ## C2 / C10 (creation): `create_order` (`app/pos/views.py`, lines 2473-2871)

We model the new-order path of `create_order` after per-item validation has
succeeded: the handler receives the validated line items (each already
carrying its computed `total_price`), the free-text `notes` from the
request, and the pre-generated random `order_number` (the
`generate_order_number` helper touches no database state). -/

/-- One validated line item of an order-creation request. -/
structure NewItem where
  menu_item_id : Nat
  quantity : Nat
  unit_price : Int
  total_price : Int
  notes : Option String
  deriving DecidableEq

/-- Outcomes of `create_order`, one constructor per `return` site that the
modelled new-order path can reach. -/
inductive CreateOrderResult
  | noItems
  | noCashierAssignment
  | created (order_id : Nat) (order_number : String)
  deriving DecidableEq

/-- The literal tag `create_order` puts in front of every waiter order. -/
def waiterOrderTag : String := "[WAITER ORDER]"

/-- Mirrors the `waiter_note` f-string of `create_order` (line 2621). -/
def waiter_note_text (waiter_name cashier_name : String) : String :=
  waiterOrderTag ++ " Created by: " ++ waiter_name ++ " | Assigned to: " ++
    cashier_name ++ " (Admin Assigned)"

/-- Shared tail of `create_order` for a new order: draw the branch counter,
build the `Order` row and append it (its `id` models the autoincrement
primary key). -/
def create_order_commit (db : PosDb) (user : UserRec) (items : List NewItem)
    (total_amount : Int) (assigned_cashier_id : Option Nat)
    (order_notes : String) (order_status : OrderStatus)
    (service_type : ServiceType) (table_id : Option Nat)
    (order_number : String) (now : Nat) : CreateOrderResult × PosDb :=
  let next := get_next_counter db.counters (user.branch_id.getD 0) now
  let oid := db.orders.length + 1
  let order : Order :=
    { id := oid
      order_number := order_number
      order_counter := some next.1
      total_amount := total_amount
      payment_method := none
      service_type := service_type
      status := order_status
      notes := order_notes
      created_at := now
      paid_at := if order_status = OrderStatus.PAID then some now else none
      cleared_from_waiter_requests := false
      last_edited_at := none
      last_edited_by := none
      edit_count := 0
      branch_id := user.branch_id.getD 0
      cashier_id := some user.id
      assigned_cashier_id := assigned_cashier_id
      table_id := table_id }
  let items2 := db.order_items ++ items.map (fun i =>
    { id := 0, order_id := oid, menu_item_id := i.menu_item_id,
      quantity := i.quantity, unit_price := i.unit_price,
      total_price := i.total_price, notes := i.notes, special_requests := "",
      is_new := false, is_deleted := false })
  (CreateOrderResult.created oid order_number,
   { db with orders := db.orders ++ [order], order_items := items2,
             counters := next.2 })

/-- Mirrors the new-order path of `create_order`.  For a waiter the handler
consults the assignment directory and aborts with the typed
`no_cashier_assignment` failure before any state is touched; otherwise the
pre-pended `[WAITER ORDER]` note is built and the order starts `PENDING`.
Cashier-created orders are committed immediately as `PAID`. -/
def create_order (db : PosDb) (user : UserRec) (items : List NewItem)
    (request_notes : String) (request_assigned_cashier_id : Option Nat)
    (service_type : ServiceType) (table_id : Option Nat)
    (order_number : String) (now : Nat) : CreateOrderResult × PosDb :=
  if items.isEmpty then (.noItems, db)
  else
    let total_amount := (items.map (fun i => i.total_price)).sum
    if user.role = UserRole.WAITER then
      match get_assignment_for_waiter db.assignments user.id
          (user.branch_id.getD 0) with
      | none => (.noCashierAssignment, db)
      | some assignment =>
        match db.users.find? (fun u => u.id == assignment.assigned_cashier_id) with
        | none => (.noCashierAssignment, db)
        | some cashier =>
          let wnote := waiter_note_text user.full_name cashier.full_name
          let order_notes :=
            if request_notes = "" then wnote else wnote ++ "\n" ++ request_notes
          create_order_commit db user items total_amount
            (some assignment.assigned_cashier_id) order_notes
            OrderStatus.PENDING service_type table_id order_number now
    else
      create_order_commit db user items total_amount
        request_assigned_cashier_id request_notes OrderStatus.PAID
        service_type table_id order_number now

/-- Claim C2: an order-creation request by a waiter with no assignment
record fails with the distinguishable `no_cashier_assignment` signal (not a
generic failure) and leaves the database — in particular the order table and
the branch sequence counters — completely unchanged. -/
theorem createOrder_no_assignment (db : PosDb) (user : UserRec)
    (items : List NewItem) (request_notes : String)
    (service_type : ServiceType) (table_id : Option Nat)
    (order_number : String) (now : Nat)
    (hrole : user.role = UserRole.WAITER)
    (hitems : items ≠ [])
    (hassign : get_assignment_for_waiter db.assignments user.id
        (user.branch_id.getD 0) = none) :
    create_order db user items request_notes none service_type table_id
        order_number now = (CreateOrderResult.noCashierAssignment, db) ∧
    (create_order db user items request_notes none service_type table_id
        order_number now).2.orders = db.orders ∧
    (create_order db user items request_notes none service_type table_id
        order_number now).2.counters = db.counters ∧
    CreateOrderResult.noCashierAssignment ≠ CreateOrderResult.noItems := by
  have hne : ¬ items.isEmpty := by
    cases items with
    | nil => exact absurd rfl hitems
    | cons a as => simp
  unfold create_order
  rw [if_neg hne, if_pos hrole, hassign]
  exact ⟨rfl, rfl, rfl, by simp⟩

/-- A waiter with no assignment record in the concrete example database. -/
def waiterNoAssignment : UserRec :=
  { id := 7, role := UserRole.WAITER, branch_id := some 1,
    full_name := "Walter W", is_active := true }

/-- A concrete example database with one cashier user, no assignments, one
branch counter and no orders. -/
def exampleDb : PosDb :=
  { users := [{ id := 2, role := UserRole.CASHIER, branch_id := some 1,
                full_name := "Casey C", is_active := true }]
    orders := []
    order_items := []
    counters := [{ id := 1, branch_id := 1, current_counter := 5,
                   last_reset_date := none, updated_at := 0 }]
    assignments := []
    edit_history := []
    audit := [] }

/-- A single concrete validated line item. -/
def exampleItem : NewItem :=
  { menu_item_id := 11, quantity := 2, unit_price := 10, total_price := 20,
    notes := none }

/-- Witness for `createOrder_no_assignment` on the concrete database. -/
theorem createOrder_no_assignment_witness :
    create_order exampleDb waiterNoAssignment [exampleItem] "" none
        ServiceType.ON_TABLE (some 3) "ORD1" 50 =
      (CreateOrderResult.noCashierAssignment, exampleDb) :=
  (createOrder_no_assignment exampleDb waiterNoAssignment [exampleItem] ""
    ServiceType.ON_TABLE (some 3) "ORD1" 50 rfl (by decide) rfl).1

/-! ## C4 / C9 / C10 (logout gate): `check_logout_permission`
(`app/pos/views.py`, lines 1198-1352) -/

/-- Mirrors the `CashierSession` model (`app/models.py`, lines 396-472). -/
structure CashierSession where
  id : Nat
  session_id : String
  login_date : Nat
  initial_order_count : Nat
  current_order_count : Nat
  daily_report_printed : Bool
  report_printed_at : Option Nat
  last_activity : Nat
  is_active : Bool
  branch_id : Nat
  cashier_id : Nat
  deriving DecidableEq

/-- Mirrors `func.date(created_at)`: the calendar day of an abstract tick. -/
def func_date (t : Nat) : Nat := t / 86400

/-- Mirrors STEP 1 of `check_logout_permission`: the `report_printed_at` of
the most recent session today with `daily_report_printed = True`. -/
def latest_report_time (sessions : List CashierSession) (cashier_id today : Nat) :
    Option Nat :=
  ((sessions.filter (fun s =>
      s.cashier_id == cashier_id && s.login_date == today &&
      s.daily_report_printed && s.report_printed_at.isSome)).map
    (fun s => s.report_printed_at.getD 0)).max?

/-- The filter of the `orders_after_report` count: created by or assigned to
the cashier, created today, and (when a report exists) after it. -/
def orders_after_report_pred (cashier_id today : Nat)
    (last_report_time : Option Nat) (o : Order) : Bool :=
  (o.cashier_id == some cashier_id || o.assigned_cashier_id == some cashier_id) &&
  func_date o.created_at == today &&
  (match last_report_time with
   | some t => decide (t < o.created_at)
   | none => true)

/-- Mirrors STEP 1/2 of `check_logout_permission`. -/
def orders_after_report_count (orders : List Order) (cashier_id today : Nat)
    (last_report_time : Option Nat) : Nat :=
  (orders.filter (orders_after_report_pred cashier_id today last_report_time)).length

/-- The filter of STEP 2 of `check_logout_permission`: unpaid waiter orders
assigned to this cashier, selected by the `[WAITER ORDER]` notes tag. -/
def unpaid_waiter_pred (cashier_id : Nat) (o : Order) : Bool :=
  o.assigned_cashier_id == some cashier_id &&
  strContains o.notes waiterOrderTag &&
  o.status == OrderStatus.PENDING

/-- Mirrors STEP 2 of `check_logout_permission`. -/
def unpaid_waiter_orders_count (orders : List Order) (cashier_id : Nat) : Nat :=
  (orders.filter (unpaid_waiter_pred cashier_id)).length

/-- The JSON payload of `check_logout_permission`, restricted to the fields
the spec talks about.  `action_required` is the machine-readable blocking
reason (`"both"`, `"report"`, `"waiter_orders_then_report"`, `"none"`); the
error path of the handler returns no `action_required` field, hence the
`Option`. -/
structure LogoutResponse where
  success : Bool
  can_logout : Bool
  action_required : Option String
  deriving DecidableEq

/-- Mirrors STEP 4/5 of `check_logout_permission`: the decision taken from
the two counts. -/
def logout_decision (orders_after_report unpaid_waiter_orders : Nat) :
    LogoutResponse :=
  let needs_report := 0 < orders_after_report
  let has_unpaid_waiter_orders := 0 < unpaid_waiter_orders
  if needs_report ∧ has_unpaid_waiter_orders then
    { success := true, can_logout := false, action_required := some "both" }
  else if needs_report ∧ ¬ has_unpaid_waiter_orders then
    { success := true, can_logout := false, action_required := some "report" }
  else if ¬ needs_report ∧ has_unpaid_waiter_orders then
    { success := true, can_logout := false,
      action_required := some "waiter_orders_then_report" }
  else
    { success := true, can_logout := true, action_required := some "none" }

/-- Mirrors the body of `check_logout_permission` for a cashier: compute the
two counts from the database and decide. -/
def check_logout_body (orders : List Order) (sessions : List CashierSession)
    (cashier_id today : Nat) : LogoutResponse :=
  let last_report_time := latest_report_time sessions cashier_id today
  logout_decision
    (orders_after_report_count orders cashier_id today last_report_time)
    (unpaid_waiter_orders_count orders cashier_id)

/-- Mirrors the `try/except` wrapper of `check_logout_permission`: an
internal exception while evaluating the rules is swallowed and logout is
allowed (`can_logout: True`, reason "System error - logout allowed"). -/
def check_logout_with_errors (outcome : Except String LogoutResponse) :
    LogoutResponse :=
  match outcome with
  | .ok r => r
  | .error _ => { success := true, can_logout := true, action_required := none }

/-- Claim C4: the logout decision blocks exactly when `ordersSinceReport > 0`
or `unpaidDelegated > 0`; the blocking reason is `"report"` for (3, 0),
`"waiter_orders_then_report"` for (0, 2), `"both"` whenever both counts are
positive, and logout is allowed when both are zero.  The full cashier check
is this decision applied to the two database counts. -/
theorem logout_decision_claim :
    (∀ a u : Nat, (logout_decision a u).can_logout = false ↔ (0 < a ∨ 0 < u)) ∧
    (logout_decision 3 0).can_logout = false ∧
    (logout_decision 3 0).action_required = some "report" ∧
    (logout_decision 0 2).can_logout = false ∧
    (logout_decision 0 2).action_required = some "waiter_orders_then_report" ∧
    (∀ a u : Nat, 0 < a → 0 < u →
      (logout_decision a u).can_logout = false ∧
      (logout_decision a u).action_required = some "both") ∧
    (logout_decision 0 0).can_logout = true ∧
    (∀ (orders : List Order) (sessions : List CashierSession)
       (cashier_id today : Nat),
      check_logout_body orders sessions cashier_id today =
        logout_decision
          (orders_after_report_count orders cashier_id today
            (latest_report_time sessions cashier_id today))
          (unpaid_waiter_orders_count orders cashier_id)) := by
  refine ⟨?_, by decide, by decide, by decide, by decide, ?_, by decide,
    fun _ _ _ _ => rfl⟩
  · intro a u
    unfold logout_decision
    rcases Nat.eq_zero_or_pos a with ha | ha <;>
      rcases Nat.eq_zero_or_pos u with hu | hu <;>
      subst_eqs <;> simp_all [Nat.pos_iff_ne_zero]
  · intro a u ha hu
    unfold logout_decision
    simp [ha, hu]

/-- Witness for `logout_decision_claim` at the concrete counts (1, 1) and
(3, 0). -/
theorem logout_decision_claim_witness :
    ((logout_decision 1 1).can_logout = false ↔ (0 < 1 ∨ 0 < 1)) ∧
    (logout_decision 1 1).action_required = some "both" ∧
    check_logout_body [] [] 2 0 = logout_decision 0 0 :=
  ⟨logout_decision_claim.1 1 1,
   (logout_decision_claim.2.2.2.2.2.1 1 1 (by decide) (by decide)).2,
   logout_decision_claim.2.2.2.2.2.2.2 [] [] 2 0⟩

/-- Claim C9: the logout check fails open — whenever evaluating the rules
raises an internal exception, the handler returns `can_logout = true`, even
though the same request on the non-error path could have been blocking
(counts 3 and 2 block). -/
theorem logout_check_fails_open :
    (∀ e : String,
      (check_logout_with_errors (Except.error e)).can_logout = true ∧
      (check_logout_with_errors (Except.error e)).success = true) ∧
    (check_logout_with_errors (Except.ok (logout_decision 3 2))).can_logout =
      false := by
  exact ⟨fun e => ⟨rfl, rfl⟩, by decide⟩

/-! ## C5: `CashierSession.mark_report_printed` (`app/models.py`, lines
468-472) and its caller in `daily_report` (`app/pos/views.py`, lines
1027-1048) -/

/-- Mirrors `CashierSession.mark_report_printed`: unconditionally set the
flag and stamp `report_printed_at` and `last_activity` with the current
time. -/
def mark_report_printed (s : CashierSession) (now : Nat) : CashierSession :=
  { s with daily_report_printed := true,
           report_printed_at := some now,
           last_activity := now }

/-- Mirrors the tail of `daily_report`: every successful PDF generation
calls `mark_report_printed` and then appends one `DAILY_REPORT_GENERATED`
audit row, with no check whether the report was already marked. -/
def daily_report_mark (s : CashierSession) (audit : List AuditEntry)
    (now : Nat) : CashierSession × List AuditEntry :=
  let s2 := mark_report_printed s now
  (s2, audit ++ [{ user_id := some s.cashier_id,
                   action := "DAILY_REPORT_GENERATED",
                   description := "Cashier printed daily report" }])

/-- A concrete session that has not yet produced a report today. -/
def freshSessionExample : CashierSession :=
  { id := 1, session_id := "cashier_2_day0", login_date := 0,
    initial_order_count := 0, current_order_count := 3,
    daily_report_printed := false, report_printed_at := none,
    last_activity := 0, is_active := true, branch_id := 1, cashier_id := 2 }

/-- Claim C5 counterexample: marking the report twice in the same session
(first at tick 100, again at tick 200) leaves two audit entries, not one,
and `report_printed_at` equal to the second timestamp, not the first — the
operation is last-write-wins, not idempotent. -/
theorem markReport_not_idempotent_counterexample :
    (daily_report_mark
        (daily_report_mark freshSessionExample [] 100).1
        (daily_report_mark freshSessionExample [] 100).2 200).2.length ≠ 1 ∧
    (daily_report_mark
        (daily_report_mark freshSessionExample [] 100).1
        (daily_report_mark freshSessionExample [] 100).2 200).1.report_printed_at ≠
      some 100 := by
  constructor <;> decide

/-- Claim C5 (amended): calling the mark-report operation a second time in
the same session appends a second `DAILY_REPORT_GENERATED` audit entry
(two in total) and overwrites `reportProducedAt` with the second call's
timestamp; the flag itself remains set. -/
theorem markReport_last_write_wins (s : CashierSession)
    (audit : List AuditEntry) (t1 t2 : Nat) :
    (daily_report_mark (daily_report_mark s audit t1).1
        (daily_report_mark s audit t1).2 t2).2.length = audit.length + 2 ∧
    (daily_report_mark (daily_report_mark s audit t1).1
        (daily_report_mark s audit t1).2 t2).1.report_printed_at = some t2 ∧
    (daily_report_mark (daily_report_mark s audit t1).1
        (daily_report_mark s audit t1).2 t2).1.daily_report_printed = true ∧
    (daily_report_mark s audit t1).1.report_printed_at = some t1 := by
  refine ⟨?_, rfl, rfl, rfl⟩
  simp [daily_report_mark]

/-! ## C8: `OrderCounter.get_next_counter` under concurrency
(`app/models.py`, lines 493-508)

The increment `counter_record.current_counter += 1` is a read of the
current value followed by a write of `value + 1`; the preceding
`query.filter_by(...).first()` takes no row-level lock (there is no
`with_for_update()` anywhere in the function).  We model one call on an
existing counter row as that two-step program against the shared row value,
and concurrent execution of two calls as an interleaving of their steps. -/

/-- The progress of one unlocked `get_next_counter` call on the shared
counter row: not yet started, read done (holding the value it saw), or
finished (holding its return value). -/
inductive CounterCallPhase
  | notStarted
  | readDone (seen : Nat)
  | returned (value : Nat)
  deriving DecidableEq

/-- One step of an unlocked call: first read the shared row value, then
write back `seen + 1` and return it.  A finished call leaves the row
alone. -/
def counter_call_step (shared : Nat) :
    CounterCallPhase → Nat × CounterCallPhase
  | .notStarted => (shared, .readDone shared)
  | .readDone seen => (seen + 1, .returned (seen + 1))
  | .returned v => (shared, .returned v)

/-- Run two concurrent `get_next_counter` calls under a schedule: `true`
steps the first call, `false` steps the second. -/
def run_two_counter_calls : List Bool → Nat → CounterCallPhase →
    CounterCallPhase → Nat × CounterCallPhase × CounterCallPhase
  | [], shared, a, b => (shared, a, b)
  | true :: rest, shared, a, b =>
      let step := counter_call_step shared a
      run_two_counter_calls rest step.1 step.2 b
  | false :: rest, shared, a, b =>
      let step := counter_call_step shared b
      run_two_counter_calls rest step.1 a step.2

/-- A concrete counter row for branch 1 standing at 5. -/
def counterAtFive : OrderCounterRec :=
  { id := 1, branch_id := 1, current_counter := 5, last_reset_date := none,
    updated_at := 0 }

/-- Claim C8: the code performs the increment with no row-level lock, so the
claimed mutual exclusion fails.  Serially the two calls return 6 then 7
(second and third conjuncts, via `get_next_counter` itself), but under the
interleaving read-read-write-write both concurrent calls return 6 — the
forbidden duplicate. -/
theorem counter_increment_race :
    run_two_counter_calls [true, false, true, false] 5
        CounterCallPhase.notStarted CounterCallPhase.notStarted =
      (6, CounterCallPhase.returned 6, CounterCallPhase.returned 6) ∧
    (get_next_counter [counterAtFive] 1 10).1 = 6 ∧
    (get_next_counter (get_next_counter [counterAtFive] 1 10).2 1 11).1 = 7 ∧
    run_two_counter_calls [true, true, false, false] 5
        CounterCallPhase.notStarted CounterCallPhase.notStarted =
      (7, CounterCallPhase.returned 6, CounterCallPhase.returned 7) := by
  refine ⟨rfl, rfl, ?_, rfl⟩
  decide

/-! ## C7: PIN storage and verification (`app/models.py`, lines 752-859)

`generate_password_hash` / `check_password_hash` come from werkzeug; we
model them through an abstract deterministic hash function `hash` passed
as a parameter, with `check_password_hash hash h p` holding exactly when
`h` is the hash of `p`.  Python truthiness of a nullable string column
(`if self.pin_code_hash:`) treats both `NULL` and the empty string as
false. -/

/-- Python truthiness of a nullable text column. -/
def truthyStr : Option String → Bool
  | some s => !s.isEmpty
  | none => false

/-- Model of werkzeug's `check_password_hash`. -/
def check_password_hash (hash : String → String) (stored pin_code : String) :
    Bool :=
  stored == hash pin_code

/-- Mirrors the `AdminPinCode` model (`app/models.py`, lines 752-814): the
hashed column plus the legacy plain-text `pin_code` column. -/
structure AdminPinCode where
  id : Nat
  admin_id : Option Nat
  branch_id : Nat
  pin_code_hash : Option String
  pin_type : String
  is_active : Bool
  pin_code : Option String
  deriving DecidableEq

/-- Mirrors `AdminPinCode.set_pin`: stores the hash AND keeps the raw PIN in
the legacy plain-text column (`self.pin_code = pin_code`). -/
def AdminPinCode.set_pin (hash : String → String) (r : AdminPinCode)
    (pin_code : String) : AdminPinCode :=
  { r with pin_code_hash := some (hash pin_code), pin_code := some pin_code }

/-- Mirrors `AdminPinCode.check_pin`: try the hashed PIN first, fall back to
comparing the legacy plain-text PIN, else `False`. -/
def AdminPinCode.check_pin (hash : String → String) (r : AdminPinCode)
    (pin_code : String) : Bool :=
  if truthyStr r.pin_code_hash then
    check_password_hash hash (r.pin_code_hash.getD "") pin_code
  else if truthyStr r.pin_code then
    r.pin_code.getD "" == pin_code
  else
    false

/-- Mirrors `AdminPinCode.verify_pin`: look up the active record of the
branch and check, returning `False` when none exists. -/
def AdminPinCode.verify_pin (hash : String → String)
    (records : List AdminPinCode) (branch_id : Nat) (pin_code : String) :
    Bool :=
  match (records.filter (fun r => r.branch_id == branch_id && r.is_active)).head? with
  | some r => r.check_pin hash pin_code
  | none => false

/-- Mirrors the `CashierPin` model (`app/models.py`, lines 817-859): hash
column only, no plain-text column at all. -/
structure CashierPin where
  id : Nat
  cashier_id : Nat
  branch_id : Nat
  pin_code_hash : String
  is_active : Bool
  deriving DecidableEq

/-- Mirrors `CashierPin.set_pin`: stores only the hash. -/
def CashierPin.set_pin (hash : String → String) (r : CashierPin)
    (pin_code : String) : CashierPin :=
  { r with pin_code_hash := hash pin_code }

/-- Mirrors `CashierPin.check_pin`: compare against the stored hash. -/
def CashierPin.check_pin (hash : String → String) (r : CashierPin)
    (pin_code : String) : Bool :=
  check_password_hash hash r.pin_code_hash pin_code

/-- Mirrors `CashierPin.verify_cashier_pin`: look up the active record of
the (cashier, branch) scope and check, returning `False` when none
exists. -/
def CashierPin.verify_cashier_pin (hash : String → String)
    (records : List CashierPin) (cashier_id branch_id : Nat)
    (pin_code : String) : Bool :=
  match (records.filter (fun r =>
      r.cashier_id == cashier_id && r.branch_id == branch_id &&
      r.is_active)).head? with
  | some r => r.check_pin hash pin_code
  | none => false

/-- A concrete hash stand-in used only to instantiate counterexamples whose
truth does not depend on the hash function. -/
def exampleHashFn (s : String) : String := "hashed:" ++ s

/-- A concrete administrative PIN record before any PIN is set. -/
def adminPinRecordExample : AdminPinCode :=
  { id := 1, admin_id := some 4, branch_id := 1, pin_code_hash := none,
    pin_type := "waiter_assignment", is_active := true, pin_code := none }

/-- Claim C7 counterexample: for the branch-level administrative PIN scope,
setting a PIN does NOT store only a hash — `AdminPinCode.set_pin` keeps the
raw PIN in the legacy plain-text `pin_code` column; and when the hash column
is empty, verification compares directly against that plain-text copy. -/
theorem adminPin_plaintext_counterexample :
    (AdminPinCode.set_pin exampleHashFn adminPinRecordExample "1234").pin_code =
      some "1234" ∧
    AdminPinCode.check_pin exampleHashFn
      { adminPinRecordExample with pin_code := some "1234" } "1234" = true := by
  constructor <;> decide

/-- Claim C7 (amended): the checkout-operator PIN scope stores only a hash
(`CashierPin.set_pin` writes the hash column and the model has no plain-text
column) and verifies by comparing against that stored hash; verification
returns false (never throws) for an unknown scope or an inactive record, in
both scopes.  The administrative scope, however, stores the raw PIN in a
legacy plain-text column alongside the hash, and its check falls back to a
plain-text comparison when no hash is stored. -/
theorem pin_storage_amended :
    (∀ (hash : String → String) (r : CashierPin) (pin : String),
        (CashierPin.set_pin hash r pin).pin_code_hash = hash pin) ∧
    (∀ (hash : String → String) (r : CashierPin) (pin : String),
        CashierPin.check_pin hash r pin =
          check_password_hash hash r.pin_code_hash pin) ∧
    (∀ (hash : String → String) (cid bid : Nat) (pin : String),
        CashierPin.verify_cashier_pin hash [] cid bid pin = false) ∧
    (∀ (hash : String → String) (r : CashierPin) (cid bid : Nat) (pin : String),
        r.is_active = false →
        CashierPin.verify_cashier_pin hash [r] cid bid pin = false) ∧
    (∀ (hash : String → String) (bid : Nat) (pin : String),
        AdminPinCode.verify_pin hash [] bid pin = false) ∧
    (∀ (hash : String → String) (r : AdminPinCode) (bid : Nat) (pin : String),
        r.is_active = false →
        AdminPinCode.verify_pin hash [r] bid pin = false) ∧
    (∀ (hash : String → String) (r : AdminPinCode) (pin : String),
        (AdminPinCode.set_pin hash r pin).pin_code_hash = some (hash pin) ∧
        (AdminPinCode.set_pin hash r pin).pin_code = some pin) := by
  refine ⟨fun _ _ _ => rfl, fun _ _ _ => rfl, fun _ _ _ _ => rfl, ?_,
    fun _ _ _ => rfl, ?_, fun _ _ _ => ⟨rfl, rfl⟩⟩
  · intro hash r cid bid pin hina
    unfold CashierPin.verify_cashier_pin
    simp [hina]
  · intro hash r bid pin hina
    unfold AdminPinCode.verify_pin
    simp [hina]

/-- Witness for `pin_storage_amended` at concrete inactive records. -/
theorem pin_storage_amended_witness :
    CashierPin.verify_cashier_pin exampleHashFn
      [{ id := 1, cashier_id := 2, branch_id := 1,
         pin_code_hash := exampleHashFn "1234", is_active := false }] 2 1
      "1234" = false ∧
    AdminPinCode.verify_pin exampleHashFn
      [{ adminPinRecordExample with is_active := false }] 1 "1234" = false :=
  ⟨pin_storage_amended.2.2.2.1 exampleHashFn
    { id := 1, cashier_id := 2, branch_id := 1,
      pin_code_hash := exampleHashFn "1234", is_active := false } 2 1 "1234" rfl,
   pin_storage_amended.2.2.2.2.2.1 exampleHashFn
    { adminPinRecordExample with is_active := false } 1 "1234" rfl⟩

/-! ## C3: `transfer_orders` (`app/pos/views.py`, lines 1444-1529) -/

/-- The per-order validity condition of the transfer query: currently
assigned to the requesting cashier, still `PENDING`, and tagged as a waiter
order. -/
def transfer_order_valid (current_id : Nat) (o : Order) : Bool :=
  o.assigned_cashier_id == some current_id &&
  o.status == OrderStatus.PENDING &&
  strContains o.notes waiterOrderTag

/-- The full filter of the `orders_to_transfer` query: id requested and
valid. -/
def transfer_order_ok (current_id : Nat) (order_ids : List Nat) (o : Order) :
    Bool :=
  decide (o.id ∈ order_ids) && transfer_order_valid current_id o

/-- Mirrors the `transfer_note` f-string appended to each transferred
order's notes. -/
def transfer_note_text (from_name to_name : String) (now : Nat) : String :=
  "\n" ++ "[TRANSFERRED]" ++ " From: " ++ from_name ++ " to: " ++ to_name ++
    " at " ++ toString now

/-- Outcomes of `transfer_orders`, one constructor per `return` site. -/
inductive TransferResult
  | onlyCashiers
  | missingParams
  | invalidTargetCashier
  | someOrdersCannotBeTransferred
  | transferred (count : Nat)
  deriving DecidableEq

/-- Mirrors `transfer_orders`: role gate, parameter check, target-cashier
validation, the all-or-nothing length comparison, then per-order rewrite of
`assigned_cashier_id`, notes append, and one audit row per order, committed
together. -/
def transfer_orders (db : PosDb) (current : UserRec) (order_ids : List Nat)
    (target_cashier_id : Option Nat) (now : Nat) : TransferResult × PosDb :=
  if current.role ≠ UserRole.CASHIER then (.onlyCashiers, db)
  else if order_ids.isEmpty then (.missingParams, db)
  else
    match target_cashier_id with
    | none => (.missingParams, db)
    | some tid =>
      match db.users.find? (fun u => u.id == tid) with
      | none => (.invalidTargetCashier, db)
      | some target =>
        if target.branch_id ≠ current.branch_id ∨
            target.role ≠ UserRole.CASHIER then
          (.invalidTargetCashier, db)
        else if (db.orders.filter
              (transfer_order_ok current.id order_ids)).length ≠
            order_ids.length then
          (.someOrdersCannotBeTransferred, db)
        else
          (.transferred
             (db.orders.filter (transfer_order_ok current.id order_ids)).length,
           { db with
              orders := db.orders.map (fun o =>
                if transfer_order_ok current.id order_ids o then
                  { o with assigned_cashier_id := some tid,
                           notes := o.notes ++ transfer_note_text
                             current.full_name target.full_name now }
                else o),
              audit := db.audit ++
                (db.orders.filter (transfer_order_ok current.id order_ids)).map
                  (fun o =>
                    { user_id := some current.id,
                      action := "ORDER_TRANSFERRED",
                      description := "Order " ++ o.order_number ++
                        " transferred" }) })

/-- When some requested id has no valid order behind it, the transfer query
matches strictly fewer rows than ids were requested (order ids are unique in
the database, so no other row can stand in for the bad id). -/
theorem transfer_filter_length_lt (orders : List Order) (order_ids : List Nat)
    (cid oid : Nat)
    (hnodup : (orders.map Order.id).Nodup)
    (hmem : oid ∈ order_ids)
    (hbad : ∀ o ∈ orders, o.id = oid → transfer_order_valid cid o = false) :
    (orders.filter (transfer_order_ok cid order_ids)).length <
      order_ids.length := by
  set f := orders.filter (transfer_order_ok cid order_ids) with hf
  have hsub : List.Sublist (f.map Order.id) (orders.map Order.id) :=
    (List.filter_sublist orders).map Order.id
  have hnf : (f.map Order.id).Nodup := hnodup.sublist hsub
  have hss : ∀ x ∈ f.map Order.id, x ∈ order_ids.toFinset.erase oid := by
    intro x hx
    obtain ⟨o, ho, rfl⟩ := List.mem_map.1 hx
    have hmemf := List.mem_filter.1 ho
    have hok := hmemf.2
    unfold transfer_order_ok at hok
    rw [Bool.and_eq_true] at hok
    have hid : o.id ∈ order_ids := of_decide_eq_true hok.1
    have hne : o.id ≠ oid := by
      intro he
      have hfalse := hbad o hmemf.1 he
      rw [hfalse] at hok
      exact Bool.false_ne_true hok.2
    exact Finset.mem_erase.2 ⟨hne, List.mem_toFinset.2 hid⟩
  have h1 : f.length = (f.map Order.id).length := (List.length_map f _).symm
  have h2 : (f.map Order.id).length = (f.map Order.id).toFinset.card :=
    (List.toFinset_card_of_nodup hnf).symm
  have h3 : (f.map Order.id).toFinset ⊆ order_ids.toFinset.erase oid :=
    fun x hx => hss x (List.mem_toFinset.1 hx)
  have h4 : (f.map Order.id).toFinset.card ≤
      (order_ids.toFinset.erase oid).card := Finset.card_le_card h3
  have h5 : (order_ids.toFinset.erase oid).card < order_ids.toFinset.card :=
    Finset.card_erase_lt_of_mem (List.mem_toFinset.2 hmem)
  have h6 : order_ids.toFinset.card ≤ order_ids.length :=
    order_ids.toFinset_card_le
  omega

/-- When the transfer query matches exactly as many rows as ids were
requested, every requested id corresponds to a valid order. -/
theorem transfer_all_valid_of_length_eq (orders : List Order)
    (order_ids : List Nat) (cid : Nat)
    (hnodup : (orders.map Order.id).Nodup)
    (hlen : (orders.filter (transfer_order_ok cid order_ids)).length =
      order_ids.length) :
    ∀ o ∈ orders, o.id ∈ order_ids → transfer_order_valid cid o = true := by
  intro o ho hid
  by_contra hnv
  have hvf : transfer_order_valid cid o = false := by
    cases h : transfer_order_valid cid o
    · rfl
    · exact absurd h hnv
  have hbad : ∀ o2 ∈ orders, o2.id = o.id →
      transfer_order_valid cid o2 = false := by
    intro o2 ho2 he
    have heq : o2 = o := List.inj_on_of_nodup_map hnodup ho2 ho he
    rw [heq]
    exact hvf
  have := transfer_filter_length_lt orders order_ids cid o.id hnodup hid hbad
  omega

theorem strContains_self (pat : String) : strContains pat pat = true := by
  unfold strContains
  apply occursIn_of_headMatches
  have h := headMatches_append_self pat.data []
  simpa using h

theorem transfer_note_contains_tag (f t : String) (now : Nat) :
    strContains (transfer_note_text f t now) "[TRANSFERRED]" = true := by
  unfold transfer_note_text
  apply strContains_mono_left
  apply strContains_mono_left
  apply strContains_mono_left
  apply strContains_mono_left
  apply strContains_mono_left
  apply strContains_mono_left
  exact strContains_mono_right "\n" (strContains_self "[TRANSFERRED]")

/-- Case analysis on `transfer_orders`: either it fails with no state change
and a non-`transferred` result, or every check passed, the filter matched
exactly the requested ids, and the success pair is returned. -/
theorem transfer_orders_spec (db : PosDb) (current : UserRec)
    (order_ids : List Nat) (tco : Option Nat) (now : Nat) :
    ((transfer_orders db current order_ids tco now).2 = db ∧
      ∀ k, (transfer_orders db current order_ids tco now).1 ≠
        TransferResult.transferred k) ∨
    (∃ tid target,
      tco = some tid ∧
      db.users.find? (fun u => u.id == tid) = some target ∧
      (db.orders.filter (transfer_order_ok current.id order_ids)).length =
        order_ids.length ∧
      transfer_orders db current order_ids tco now =
        (TransferResult.transferred
           (db.orders.filter (transfer_order_ok current.id order_ids)).length,
         { db with
            orders := db.orders.map (fun o =>
              if transfer_order_ok current.id order_ids o then
                { o with assigned_cashier_id := some tid,
                         notes := o.notes ++ transfer_note_text
                           current.full_name target.full_name now }
              else o),
            audit := db.audit ++
              (db.orders.filter (transfer_order_ok current.id order_ids)).map
                (fun o =>
                  { user_id := some current.id,
                    action := "ORDER_TRANSFERRED",
                    description := "Order " ++ o.order_number ++
                      " transferred" }) })) := by
  unfold transfer_orders
  split
  · exact Or.inl ⟨rfl, by simp⟩
  split
  · exact Or.inl ⟨rfl, by simp⟩
  split
  · exact Or.inl ⟨rfl, by simp⟩
  next tid =>
    split
    · exact Or.inl ⟨rfl, by simp⟩
    next target hfind =>
      split
      · exact Or.inl ⟨rfl, by simp⟩
      next h3 =>
        split
        · exact Or.inl ⟨rfl, by simp⟩
        next h4 =>
          exact Or.inr ⟨tid, target, rfl, hfind, not_ne_iff.mp h4, rfl⟩

/-- Claim C3: the transfer of a batch is all-or-nothing.  If some requested
order is not currently delegated to the requesting operator, or is not
`PENDING`, or is not tagged as a waiter order (or does not exist), the whole
batch is rejected: the database — in particular every order row and its
`assigned_cashier_id` — is unchanged and no success result is returned.  On
success the count equals the batch size, one audit entry is written per
order, every requested order is rewritten to the target operator with a
`[TRANSFERRED]` note appended to its annotation, and every other order is
untouched.  (Order ids are unique, being the primary key.) -/
theorem transferOrders_all_or_nothing (db : PosDb) (current : UserRec)
    (order_ids : List Nat) (target_cashier_id : Option Nat) (now : Nat)
    (hnodup : (db.orders.map Order.id).Nodup) :
    ((∃ oid ∈ order_ids, ∀ o ∈ db.orders, o.id = oid →
        transfer_order_valid current.id o = false) →
      (transfer_orders db current order_ids target_cashier_id now).2 = db ∧
      ∀ k, (transfer_orders db current order_ids target_cashier_id now).1 ≠
        TransferResult.transferred k) ∧
    (∀ k, (transfer_orders db current order_ids target_cashier_id now).1 =
        TransferResult.transferred k →
      k = order_ids.length ∧
      (transfer_orders db current order_ids target_cashier_id now).2.audit.length =
        db.audit.length + order_ids.length ∧
      ∀ p ∈ db.orders.zip
          (transfer_orders db current order_ids target_cashier_id now).2.orders,
        (p.1.id ∈ order_ids →
          p.2.assigned_cashier_id = target_cashier_id ∧
          ∃ s, p.2.notes = p.1.notes ++ s ∧
            strContains s "[TRANSFERRED]" = true) ∧
        (p.1.id ∉ order_ids → p.2 = p.1)) := by
  rcases transfer_orders_spec db current order_ids target_cashier_id now with
    hfail | ⟨tid, target, htco, hfind, hlen, heq⟩
  · refine ⟨fun _ => hfail, fun k hk => absurd hk (hfail.2 k)⟩
  · constructor
    · rintro ⟨oid, hoid, hbad⟩
      have hlt := transfer_filter_length_lt db.orders order_ids current.id oid
        hnodup hoid hbad
      omega
    · intro k hk
      have hvalid := transfer_all_valid_of_length_eq db.orders order_ids
        current.id hnodup hlen
      rw [heq] at hk
      have hk2 : k =
          (db.orders.filter (transfer_order_ok current.id order_ids)).length := by
        cases hk
        rfl
      refine ⟨by omega, ?_, ?_⟩
      · rw [heq]
        simp [List.length_append, List.length_map, hlen]
      · rw [heq]
        intro p hp
        have hzip : db.orders.zip (db.orders.map (fun o =>
            if transfer_order_ok current.id order_ids o then
              { o with assigned_cashier_id := some tid,
                       notes := o.notes ++ transfer_note_text
                         current.full_name target.full_name now }
            else o)) = db.orders.map (fun a => (a,
            if transfer_order_ok current.id order_ids a then
              { a with assigned_cashier_id := some tid,
                       notes := a.notes ++ transfer_note_text
                         current.full_name target.full_name now }
            else a)) := by
          have h := List.zip_map' id (fun o =>
            if transfer_order_ok current.id order_ids o then
              { o with assigned_cashier_id := some tid,
                       notes := o.notes ++ transfer_note_text
                         current.full_name target.full_name now }
            else o) db.orders
          simpa using h
        simp only at hp
        rw [hzip] at hp
        obtain ⟨a, ha, rfl⟩ := List.mem_map.1 hp
        constructor
        · intro hid
          have hv := hvalid a ha hid
          have hok : transfer_order_ok current.id order_ids a = true := by
            unfold transfer_order_ok
            rw [Bool.and_eq_true]
            exact ⟨decide_eq_true hid, hv⟩
          simp only [hok, if_pos]
          refine ⟨by rw [htco], ⟨transfer_note_text current.full_name
            target.full_name now, rfl, transfer_note_contains_tag _ _ _⟩⟩
        · intro hid
          have hok : transfer_order_ok current.id order_ids a = false := by
            unfold transfer_order_ok
            simp [hid]
          simp only [hok]
          rfl

/-- A concrete pending waiter order delegated to cashier 2. -/
def pendingWaiterOrderExample : Order :=
  { id := 1
    order_number := "ORD20250101BBBB"
    order_counter := some 6
    total_amount := 20
    payment_method := none
    service_type := ServiceType.ON_TABLE
    status := OrderStatus.PENDING
    notes := "[WAITER ORDER] Created by: Walter W"
    created_at := 20
    paid_at := none
    cleared_from_waiter_requests := false
    last_edited_at := none
    last_edited_by := none
    edit_count := 0
    branch_id := 1
    cashier_id := some 7
    assigned_cashier_id := some 2
    table_id := some 3 }

/-- The requesting cashier of the concrete transfer scenario. -/
def transferCurrentExample : UserRec :=
  { id := 2, role := UserRole.CASHIER, branch_id := some 1,
    full_name := "Casey C", is_active := true }

/-- A concrete database for the transfer scenario: two cashiers of branch 1
and one pending waiter order delegated to cashier 2. -/
def transferDbExample : PosDb :=
  { users := [transferCurrentExample,
              { id := 3, role := UserRole.CASHIER, branch_id := some 1,
                full_name := "Dana D", is_active := true }]
    orders := [pendingWaiterOrderExample]
    order_items := []
    counters := []
    assignments := []
    edit_history := []
    audit := [] }

/-- Witness for `transferOrders_all_or_nothing` on the concrete scenario:
transferring order 1 from cashier 2 to cashier 3 succeeds and writes one
audit entry for the one-order batch. -/
theorem transferOrders_all_or_nothing_witness :
    (1 : Nat) = [1].length ∧
    (transfer_orders transferDbExample transferCurrentExample [1] (some 3)
        77).2.audit.length = transferDbExample.audit.length + [1].length :=
  ⟨((transferOrders_all_or_nothing transferDbExample transferCurrentExample
      [1] (some 3) 77 (by decide)).2 1 rfl).1,
   ((transferOrders_all_or_nothing transferDbExample transferCurrentExample
      [1] (some 3) 77 (by decide)).2 1 rfl).2.1⟩

/-! ## C6: `save_order_changes` (`app/pos/views.py`, lines 2009-2177)

The request carries one entry per line item; the frontend's `special_items`
array is already folded into each entry's `notes` string (the handler only
converts it to text).  Database-assigned primary keys of newly created items
are modelled as 0. -/

/-- One entry of the `items` payload of `save_order_changes`. -/
structure EditItemData where
  id : Option Nat
  is_new : Bool
  is_deleted : Bool
  quantity : Nat
  unit_price : Int
  total_price : Int
  special_requests : String
  notes : Option String
  menu_item_id : Nat
  deriving DecidableEq

/-- Outcomes of `save_order_changes`, one constructor per `return` site. -/
inductive SaveResult
  | accessDenied
  | orderNotFound
  | notYourOrder
  | paidOnTableNotEditable
  | notEditable
  | saved (new_total : Int)
  deriving DecidableEq

/-- Mirrors the `can_edit_paid` condition (lines 2032-2033): delivery,
take-away, or card payment. -/
def can_edit_paid (o : Order) : Bool :=
  (o.service_type == ServiceType.DELIVERY ||
   o.service_type == ServiceType.TAKE_AWAY) ||
  o.payment_method == some PaymentMethod.CARD

/-- The ids of the existing items of the order
(`existing_items = {item.id: item for item in order.order_items}`). -/
def existing_item_ids (db_items : List OrderItemRec) (order_id : Nat) :
    List Nat :=
  ((db_items.filter (fun it => it.order_id == order_id)).map (fun it => it.id))

/-- The contribution of one payload entry to `new_total`: an updated
existing item counts unless deleted; a new non-deleted item counts; anything
else contributes nothing. -/
def edit_item_contribution (existing_ids : List Nat) (d : EditItemData) : Int :=
  match d.id with
  | some i =>
      if i ∈ existing_ids then (if d.is_deleted then 0 else d.total_price)
      else if d.is_new && !d.is_deleted then d.total_price else 0
  | none => if d.is_new && !d.is_deleted then d.total_price else 0

/-- The `new_total` accumulated by the item-processing loop. -/
def edit_new_total (existing_ids : List Nat) (items : List EditItemData) :
    Int :=
  (items.map (edit_item_contribution existing_ids)).sum

/-- Mirrors the update of one existing item (lines 2059-2082). -/
def update_existing_item (it : OrderItemRec) (d : EditItemData) :
    OrderItemRec :=
  { it with quantity := d.quantity, unit_price := d.unit_price,
            total_price := d.total_price,
            special_requests := d.special_requests,
            notes := match d.notes with | some n => some n | none => it.notes,
            is_deleted := d.is_deleted }

/-- Mirrors the in-place updates of the order's existing items: updated when
mentioned in the payload, flagged deleted (never removed) otherwise. -/
def save_updated_items (order_id : Nat) (items : List EditItemData)
    (db_items : List OrderItemRec) : List OrderItemRec :=
  db_items.map (fun it =>
    if it.order_id == order_id then
      match items.find? (fun d => d.id == some it.id) with
      | some d => update_existing_item it d
      | none => { it with is_deleted := true }
    else it)

/-- Mirrors the creation of new items (lines 2089-2117). -/
def new_edit_items (order_id : Nat) (existing_ids : List Nat)
    (items : List EditItemData) : List OrderItemRec :=
  (items.filter (fun d =>
      (match d.id with
       | some i => decide (i ∉ existing_ids)
       | none => true) && (d.is_new && !d.is_deleted))).map (fun d =>
    { id := 0, order_id := order_id, menu_item_id := d.menu_item_id,
      quantity := d.quantity, unit_price := d.unit_price,
      total_price := d.total_price, notes := d.notes,
      special_requests := d.special_requests, is_new := true,
      is_deleted := false })

/-- Mirrors `save_order_changes`: role gate, order lookup, ownership check,
the status/service-type edit gate, then item processing, the order update
(total, editor/time stamps, `edit_count + 1`), one `OrderEditHistory` row
and one audit row, committed together. -/
def save_order_changes (db : PosDb) (user : UserRec) (order_id : Nat)
    (items : List EditItemData) (original_total : Int) (now : Nat) :
    SaveResult × PosDb :=
  if user.role ≠ UserRole.CASHIER then (.accessDenied, db)
  else
    match db.orders.find? (fun x => x.id == order_id) with
    | none => (.orderNotFound, db)
    | some o =>
      if o.cashier_id ≠ some user.id ∧ o.assigned_cashier_id ≠ some user.id then
        (.notYourOrder, db)
      else if o.status = OrderStatus.PENDING ∨
          (o.status = OrderStatus.PAID ∧ can_edit_paid o = true) then
        (SaveResult.saved
           (edit_new_total (existing_item_ids db.order_items order_id) items),
         { db with
            orders := db.orders.map (fun oo =>
              if oo.id == order_id then
                { oo with
                    total_amount := edit_new_total
                      (existing_item_ids db.order_items order_id) items,
                    last_edited_at := some now,
                    last_edited_by := some user.id,
                    edit_count := oo.edit_count + 1 }
              else oo),
            order_items := save_updated_items order_id items db.order_items ++
              new_edit_items order_id (existing_item_ids db.order_items order_id)
                items,
            edit_history := db.edit_history ++
              [{ order_id := order_id, edited_by := user.id, edited_at := now,
                 original_total := original_total,
                 new_total := edit_new_total
                   (existing_item_ids db.order_items order_id) items,
                 changes_summary := "Order edited" }],
            audit := db.audit ++
              [{ user_id := some user.id, action := "ORDER_EDITED",
                 description := "Order edited" }] })
      else if o.service_type = ServiceType.ON_TABLE ∧
          o.status = OrderStatus.PAID then
        (.paidOnTableNotEditable, db)
      else
        (.notEditable, db)

theorem mem_zip_self {α : Type} {l : List α} {p : α × α}
    (hp : p ∈ l.zip l) : p.2 = p.1 := by
  have h := List.zip_map' id id l
  rw [List.map_id] at h
  rw [h] at hp
  obtain ⟨a, _, rfl⟩ := List.mem_map.1 hp
  rfl

theorem mem_zip_map {α : Type} {l : List α} {f : α → α} {p : α × α}
    (hp : p ∈ l.zip (l.map f)) : p.2 = f p.1 := by
  have h := List.zip_map' id f l
  rw [List.map_id] at h
  rw [h] at hp
  obtain ⟨a, _, rfl⟩ := List.mem_map.1 hp
  rfl

/-- A concrete `PAID` on-table order whose payment method is card. -/
def paidOnTableCardOrderExample : Order :=
  { id := 9
    order_number := "ORD20250101CCCC"
    order_counter := some 7
    total_amount := 30
    payment_method := some PaymentMethod.CARD
    service_type := ServiceType.ON_TABLE
    status := OrderStatus.PAID
    notes := ""
    created_at := 30
    paid_at := some 31
    cleared_from_waiter_requests := false
    last_edited_at := none
    last_edited_by := none
    edit_count := 0
    branch_id := 1
    cashier_id := some 2
    assigned_cashier_id := none
    table_id := some 4 }

/-- A concrete database holding the paid on-table card order and its one
line item. -/
def editDbExample : PosDb :=
  { users := [transferCurrentExample]
    orders := [paidOnTableCardOrderExample]
    order_items := [{ id := 5, order_id := 9, menu_item_id := 11,
                      quantity := 1, unit_price := 30, total_price := 30,
                      notes := none, special_requests := "", is_new := false,
                      is_deleted := false }]
    counters := []
    assignments := []
    edit_history := []
    audit := [] }

/-- A concrete edit payload entry doubling the quantity of item 5. -/
def editItemExample : EditItemData :=
  { id := some 5, is_new := false, is_deleted := false, quantity := 2,
    unit_price := 30, total_price := 60, special_requests := "",
    notes := none, menu_item_id := 11 }

/-- Claim C6 counterexample: editing a `PAID` on-table order does NOT always
fail — when its payment method is card, `can_edit_paid` holds and the edit
succeeds, appending an `OrderEditHistory` row. -/
theorem editPaidOnTableCard_counterexample :
    paidOnTableCardOrderExample.status = OrderStatus.PAID ∧
    paidOnTableCardOrderExample.service_type = ServiceType.ON_TABLE ∧
    (save_order_changes editDbExample transferCurrentExample 9
        [editItemExample] 30 40).1 = SaveResult.saved 60 ∧
    (save_order_changes editDbExample transferCurrentExample 9
        [editItemExample] 30 40).2.edit_history.length = 1 := by
  exact ⟨rfl, rfl, rfl, rfl⟩

/-- Claim C6 (amended): editing a `PAID` on-table order fails (with the
dedicated error and no state change) unless its payment method is card;
editing a `PAID` delivery, take-away, or card-payment order succeeds, and
every successful edit increments `edit_count` by exactly one, stamps editor
and time, and appends exactly one `OrderEditHistory` row recording the
request's old total and the recomputed new total; no modelled operation
(edit, mark-paid, transfer) ever decrements or resets `edit_count`. -/
theorem saveOrderChanges_amended :
    (∀ (db : PosDb) (user : UserRec) (order_id : Nat)
       (items : List EditItemData) (original_total : Int) (now : Nat)
       (o : Order),
      user.role = UserRole.CASHIER →
      db.orders.find? (fun x => x.id == order_id) = some o →
      (o.cashier_id = some user.id ∨ o.assigned_cashier_id = some user.id) →
      o.status = OrderStatus.PAID →
      o.service_type = ServiceType.ON_TABLE →
      o.payment_method ≠ some PaymentMethod.CARD →
      save_order_changes db user order_id items original_total now =
        (SaveResult.paidOnTableNotEditable, db)) ∧
    (∀ (db : PosDb) (user : UserRec) (order_id : Nat)
       (items : List EditItemData) (original_total : Int) (now : Nat)
       (o : Order),
      user.role = UserRole.CASHIER →
      db.orders.find? (fun x => x.id == order_id) = some o →
      (o.cashier_id = some user.id ∨ o.assigned_cashier_id = some user.id) →
      o.status = OrderStatus.PAID →
      (o.service_type = ServiceType.DELIVERY ∨
       o.service_type = ServiceType.TAKE_AWAY ∨
       o.payment_method = some PaymentMethod.CARD) →
      (save_order_changes db user order_id items original_total now).1 =
        SaveResult.saved
          (edit_new_total (existing_item_ids db.order_items order_id) items) ∧
      (save_order_changes db user order_id items original_total
          now).2.edit_history =
        db.edit_history ++
          [{ order_id := order_id, edited_by := user.id, edited_at := now,
             original_total := original_total,
             new_total := edit_new_total
               (existing_item_ids db.order_items order_id) items,
             changes_summary := "Order edited" }] ∧
      ∀ p ∈ db.orders.zip
          (save_order_changes db user order_id items original_total
            now).2.orders,
        (p.1.id = order_id →
          p.2.edit_count = p.1.edit_count + 1 ∧
          p.2.last_edited_by = some user.id ∧
          p.2.last_edited_at = some now) ∧
        (p.1.id ≠ order_id → p.2 = p.1)) ∧
    (∀ (db : PosDb) (user : UserRec) (order_id : Nat)
       (items : List EditItemData) (original_total : Int) (now : Nat),
      ∀ p ∈ db.orders.zip
          (save_order_changes db user order_id items original_total
            now).2.orders,
        p.1.edit_count ≤ p.2.edit_count) ∧
    (∀ (role : UserRole) (ub : Option Nat) (o : Order) (now : Nat),
      (mark_order_paid role ub o now).2.edit_count = o.edit_count) ∧
    (∀ (db : PosDb) (current : UserRec) (order_ids : List Nat)
       (tco : Option Nat) (now : Nat),
      ∀ p ∈ db.orders.zip (transfer_orders db current order_ids tco
          now).2.orders,
        p.2.edit_count = p.1.edit_count) := by
  refine ⟨?_, ?_, ?_, ?_, ?_⟩
  · intro db user order_id items original_total now o hrole hfind hown hpaid
      hchan hpm
    have hcep : can_edit_paid o = false := by
      unfold can_edit_paid
      rw [hchan]
      simp [hpm]
    unfold save_order_changes
    split
    · next h => exact absurd hrole h
    split
    · next hf =>
      rw [hfind] at hf
      exact Option.noConfusion hf
    next o2 hf =>
      rw [hfind] at hf
      obtain rfl : o = o2 := Option.some.inj hf
      split
      · next h =>
        rcases hown with hown | hown
        · exact absurd hown h.1
        · exact absurd hown h.2
      split
      · next h =>
        rcases h with h | h
        · rw [hpaid] at h
          exact OrderStatus.noConfusion h
        · rw [hcep] at h
          exact (Bool.false_ne_true h.2).elim
      split
      · rfl
      · next h => exact absurd ⟨hchan, hpaid⟩ h
  · intro db user order_id items original_total now o hrole hfind hown hpaid
      hchan
    have hcep : can_edit_paid o = true := by
      unfold can_edit_paid
      rcases hchan with h | h | h <;> simp [h]
    unfold save_order_changes
    split
    · next h => exact absurd hrole h
    split
    · next hf =>
      rw [hfind] at hf
      exact Option.noConfusion hf
    next o2 hf =>
      rw [hfind] at hf
      obtain rfl : o = o2 := Option.some.inj hf
      split
      · next h =>
        rcases hown with hown | hown
        · exact absurd hown h.1
        · exact absurd hown h.2
      split
      · refine ⟨rfl, rfl, ?_⟩
        intro p hp
        have hm := mem_zip_map hp
        constructor
        · intro hid
          rw [hm]
          have : (p.1.id == order_id) = true := by
            rw [hid]
            simp
          rw [if_pos this]
          exact ⟨rfl, rfl, rfl⟩
        · intro hid
          rw [hm]
          have : (p.1.id == order_id) = false := by
            simp [hid]
          rw [this]
          simp
      · next h => exact absurd (Or.inr ⟨hpaid, hcep⟩) h
  · intro db user order_id items original_total now p hp
    revert hp
    unfold save_order_changes
    split
    · intro hp
      rw [mem_zip_self hp]
    split
    · intro hp
      rw [mem_zip_self hp]
    next o2 hf =>
      split
      · intro hp
        rw [mem_zip_self hp]
      split
      · intro hp
        have hm := mem_zip_map hp
        rw [hm]
        by_cases h : (p.1.id == order_id) = true
        · rw [if_pos h]
          exact Nat.le_succ _
        · rw [if_neg h]
      split
      · intro hp
        rw [mem_zip_self hp]
      · intro hp
        rw [mem_zip_self hp]
  · intro role ub o now
    unfold mark_order_paid
    split
    · rfl
    split
    · rfl
    split
    · rfl
    · rfl
  · intro db current order_ids tco now p hp
    rcases transfer_orders_spec db current order_ids tco now with
      hfail | ⟨tid, target, htco, hfind, hlen, heq⟩
    · rw [hfail.1] at hp
      rw [mem_zip_self hp]
    · rw [heq] at hp
      have hm := mem_zip_map hp
      rw [hm]
      by_cases h : transfer_order_ok current.id order_ids p.1 = true
      · rw [if_pos h]
      · rw [if_neg h]

/-- Witness for `saveOrderChanges_amended`: a concrete failing edit of a
paid on-table cash order and a concrete successful edit of a paid delivery
order. -/
theorem saveOrderChanges_amended_witness :
    (save_order_changes
        { editDbExample with orders := [{ paidOnTableCardOrderExample with
            payment_method := some PaymentMethod.CASH }] }
        transferCurrentExample 9 [editItemExample] 30 40) =
      (SaveResult.paidOnTableNotEditable,
       { editDbExample with orders := [{ paidOnTableCardOrderExample with
           payment_method := some PaymentMethod.CASH }] }) ∧
    (save_order_changes
        { editDbExample with orders := [{ paidOnTableCardOrderExample with
            service_type := ServiceType.DELIVERY }] }
        transferCurrentExample 9 [editItemExample] 30 40).1 =
      SaveResult.saved
        (edit_new_total (existing_item_ids editDbExample.order_items 9)
          [editItemExample]) :=
  ⟨saveOrderChanges_amended.1
      { editDbExample with orders := [{ paidOnTableCardOrderExample with
          payment_method := some PaymentMethod.CASH }] }
      transferCurrentExample 9 [editItemExample] 30 40
      { paidOnTableCardOrderExample with
          payment_method := some PaymentMethod.CASH }
      rfl rfl (Or.inl rfl) rfl rfl (by decide),
   (saveOrderChanges_amended.2.1
      { editDbExample with orders := [{ paidOnTableCardOrderExample with
          service_type := ServiceType.DELIVERY }] }
      transferCurrentExample 9 [editItemExample] 30 40
      { paidOnTableCardOrderExample with
          service_type := ServiceType.DELIVERY }
      rfl rfl (Or.inl rfl) rfl (Or.inl rfl)).1⟩

/-! ## C10: the `[WAITER ORDER]` tag as the delegated-order classifier

Selections: the transfer query (`views.py:1465-1470`), the logout gate's
unpaid count (`views.py:1245-1249`, embedded above as `unpaid_waiter_pred`),
and the cashier branch of the `waiter_requests` view query
(`views.py:2202-2208`). -/

/-- The cashier branch of the `waiter_requests` query: assigned to this
cashier, tagged, and not cleared. -/
def waiter_requests_cashier_pred (cashier_id : Nat) (o : Order) : Bool :=
  o.assigned_cashier_id == some cashier_id &&
  strContains o.notes waiterOrderTag &&
  !o.cleared_from_waiter_requests

/-- The order list the `waiter_requests` view shows a cashier (before the
status filter and sorting). -/
def waiter_requests_cashier_query (orders : List Order) (cashier_id : Nat) :
    List Order :=
  orders.filter (waiter_requests_cashier_pred cashier_id)

theorem waiter_note_contains_tag (w c : String) :
    strContains (waiter_note_text w c) waiterOrderTag = true := by
  unfold waiter_note_text
  apply strContains_mono_left
  apply strContains_mono_left
  apply strContains_mono_left
  apply strContains_mono_left
  exact strContains_append_right waiterOrderTag " Created by: "

/-- Claim C10: delegated (waiter) orders are classified solely by the
literal `[WAITER ORDER]` substring of the free-text notes.  Every order a
waiter successfully creates carries the tag in its notes (and starts
`PENDING`); the transfer validation, the logout gate's unpaid-delegated
count, and the waiter-requests view each select only tagged orders, so an
order without the tag is invisible to all three. -/
theorem waiter_tag_classification :
    (∀ (db : PosDb) (user : UserRec) (items : List NewItem)
       (request_notes : String) (rac : Option Nat) (st : ServiceType)
       (tid : Option Nat) (onum : String) (now : Nat)
       (assignment : WaiterCashierAssignment) (cashier : UserRec),
      user.role = UserRole.WAITER →
      items ≠ [] →
      get_assignment_for_waiter db.assignments user.id
        (user.branch_id.getD 0) = some assignment →
      db.users.find? (fun u => u.id == assignment.assigned_cashier_id) =
        some cashier →
      ∃ o : Order,
        (create_order db user items request_notes rac st tid onum
          now).2.orders = db.orders ++ [o] ∧
        strContains o.notes waiterOrderTag = true ∧
        o.status = OrderStatus.PENDING) ∧
    (∀ (cid : Nat) (o : Order),
      strContains o.notes waiterOrderTag = false →
      transfer_order_valid cid o = false) ∧
    (∀ (cid : Nat) (o : Order),
      strContains o.notes waiterOrderTag = false →
      unpaid_waiter_pred cid o = false) ∧
    (∀ (cid : Nat) (o : Order) (orders : List Order),
      strContains o.notes waiterOrderTag = false →
      unpaid_waiter_orders_count (o :: orders) cid =
        unpaid_waiter_orders_count orders cid) ∧
    (∀ (cid : Nat) (o : Order),
      strContains o.notes waiterOrderTag = false →
      waiter_requests_cashier_pred cid o = false ∧
      ∀ orders : List Order, o ∉ waiter_requests_cashier_query orders cid) := by
  refine ⟨?_, ?_, ?_, ?_, ?_⟩
  · intro db user items request_notes rac st tid onum now assignment cashier
      hrole hitems hassign hcash
    have hne : ¬ items.isEmpty := by
      cases items with
      | nil => exact absurd rfl hitems
      | cons a as => simp
    unfold create_order create_order_commit
    rw [if_neg hne, if_pos hrole]
    split
    · next hnone =>
      rw [hassign] at hnone
      exact Option.noConfusion hnone
    · next a ha =>
      rw [hassign] at ha
      obtain rfl : assignment = a := Option.some.inj ha
      split
      · next hnone =>
        rw [hcash] at hnone
        exact Option.noConfusion hnone
      · next c hc =>
        rw [hcash] at hc
        obtain rfl : cashier = c := Option.some.inj hc
        refine ⟨_, rfl, ?_, rfl⟩
        show strContains
          (if request_notes = "" then
            waiter_note_text user.full_name cashier.full_name
          else
            waiter_note_text user.full_name cashier.full_name ++ "\n" ++
              request_notes) waiterOrderTag = true
        by_cases hrn : request_notes = ""
        · rw [if_pos hrn]
          exact waiter_note_contains_tag user.full_name cashier.full_name
        · rw [if_neg hrn]
          exact strContains_mono_left _ (strContains_mono_left _
            (waiter_note_contains_tag user.full_name cashier.full_name))
  · intro cid o h
    unfold transfer_order_valid
    rw [h]
    simp
  · intro cid o h
    unfold unpaid_waiter_pred
    rw [h]
    simp
  · intro cid o orders h
    have hpred : unpaid_waiter_pred cid o = false := by
      unfold unpaid_waiter_pred
      rw [h]
      simp
    unfold unpaid_waiter_orders_count
    simp [List.filter_cons, hpred]
  · intro cid o h
    have hpred : waiter_requests_cashier_pred cid o = false := by
      unfold waiter_requests_cashier_pred
      rw [h]
      simp
    refine ⟨hpred, ?_⟩
    intro orders hmem
    have := (List.mem_filter.1 hmem).2
    rw [hpred] at this
    exact Bool.false_ne_true this

/-- A concrete database in which waiter 7 is assigned to cashier 2. -/
def assignedDbExample : PosDb :=
  { exampleDb with
      assignments := [{ id := 1, waiter_id := 7, branch_id := 1,
                        assigned_cashier_id := 2,
                        assigned_by_cashier_id := none }] }

/-- Witness for `waiter_tag_classification`: the concrete waiter-created
order carries the tag, and an untagged order is invisible to the transfer
validation. -/
theorem waiter_tag_classification_witness :
    (∃ o : Order,
      (create_order assignedDbExample waiterNoAssignment [exampleItem] ""
        none ServiceType.ON_TABLE (some 3) "ORD2" 60).2.orders =
        assignedDbExample.orders ++ [o] ∧
      strContains o.notes waiterOrderTag = true ∧
      o.status = OrderStatus.PENDING) ∧
    transfer_order_valid 2 cancelledOrderExample = false :=
  ⟨waiter_tag_classification.1 assignedDbExample waiterNoAssignment
      [exampleItem] "" none ServiceType.ON_TABLE (some 3) "ORD2" 60
      { id := 1, waiter_id := 7, branch_id := 1, assigned_cashier_id := 2,
        assigned_by_cashier_id := none }
      { id := 2, role := UserRole.CASHIER, branch_id := some 1,
        full_name := "Casey C", is_active := true }
      rfl (by decide) rfl rfl,
   waiter_tag_classification.2.1 2 cancelledOrderExample rfl⟩

end PosApp
